import Mathlib

/-!
Verification of the CURA360 wound-module clinical-stage evaluator
(`wounds.evaluateStage` and its helpers) against its specification.

The evaluator is embedded shallowly:
* a `Wound` record mirrors the columns the evaluator reads;
* optional columns are `Option` values (`none` = SQL NULL / absent field);
* JavaScript truthiness tests (`!wound.infection_signs`,
  `wound.length_cm && wound.width_cm`, ...) are modelled explicitly:
  a numeric field is falsy when it is `none` or `0`, a string field when it
  is `none` or `""`;
* timestamps are integer milliseconds; `daysSinceCreation` uses floor
  division exactly like `Math.floor((today - createdDate) / 86400000)`;
* the persistence collaborator (Supabase) is a `DB` value carried through
  an `Env` together with the evaluation instant and three failure flags,
  one per collaborator call, reproducing each call site's `catch` behaviour.
-/

/-- A row of the `wounds` table, restricted to the columns the stage
evaluator reads.  `clinical_stage` is one of the five stage strings. -/
structure Wound where
  id : Nat
  created_at : Int
  clinical_stage : String
  infection_signs : Option String
  pain_scale : Option Nat
  exudate_amount : Option String
  length_cm : Option ℚ
  width_cm : Option ℚ
deriving Repr, DecidableEq

/-- A row of the `treatments` table; the evaluator uses only the list of
rows belonging to a wound (its length, in fact). -/
structure TreatmentRec where
  id : Nat
  wound_id : Nat
  created_at : Int
deriving Repr, DecidableEq

/-- The persistence collaborator's visible state. -/
structure DB where
  wounds : List Wound
  treatments : List TreatmentRec
deriving Repr, DecidableEq

/-- One evaluation context: the database, the evaluation instant `now`
(ms since epoch) and a failure flag for each of the three collaborator
calls made during one run of `evaluateStage`. -/
structure Env where
  db : DB
  now : Int
  readWoundFails : Bool
  readTreatmentsFails : Bool
  writeFails : Bool
deriving Repr, DecidableEq

/-- JS truthiness of an optional string column: `null`, absent and `""`
are falsy, every other string is truthy. -/
def strTruthy : Option String → Bool
  | none => false
  | some s => decide (s ≠ "")

/-- Mirror of the JS guard `wound.pain_scale && wound.pain_scale > k`:
`null` is falsy, `0` is falsy, otherwise compare. -/
def painGt : Option Nat → Nat → Bool
  | none, _ => false
  | some p, k => decide (p ≠ 0) && decide (p > k)

/-- Mirror of `wound.pain_scale === null || wound.pain_scale <= k`. -/
def painNullOrLe : Option Nat → Nat → Bool
  | none, _ => true
  | some p, k => decide (p ≤ k)

/-- Mirror of `!wound.pain_scale || wound.pain_scale <= k` (`0` is falsy,
so a zero pain scale passes the first disjunct). -/
def painFalsyOrLe : Option Nat → Nat → Bool
  | none, _ => true
  | some p, k => decide (p = 0) || decide (p ≤ k)

/-- Mirror of `wound.pain_scale !== null && wound.pain_scale <= k`. -/
def painNotNullLe : Option Nat → Nat → Bool
  | none, _ => false
  | some p, k => decide (p ≤ k)

/-- Mirror of `l && w && l < bound && w < bound`: both measurements must be
present and nonzero (JS numeric truthiness) and below the bound. -/
def bothSmall : Option ℚ → Option ℚ → ℚ → Bool
  | some a, some b, bound =>
      decide (a ≠ 0) && decide (b ≠ 0) && decide (a < bound) && decide (b < bound)
  | _, _, _ => false

/-- Mirror of `if (l && w) { if (l > bound || w > bound) return true; }`:
both measurements present and nonzero, and at least one above the bound. -/
def anyBig : Option ℚ → Option ℚ → ℚ → Bool
  | some a, some b, bound =>
      decide (a ≠ 0) && decide (b ≠ 0) && (decide (a > bound) || decide (b > bound))
  | _, _, _ => false

/-- Source function `wounds._showsImprovement(wound, treatments)`. -/
def _showsImprovement (wound : Wound) (treatments : List TreatmentRec) : Bool :=
  if treatments.length < 2 then false
  else if wound.exudate_amount == some "escaso" || wound.exudate_amount == some "moderado" then
    true
  else if painNotNullLe wound.pain_scale 4 then true
  else if bothSmall wound.length_cm wound.width_cm 5 then true
  else false

/-- Source function `wounds._noImprovement(wound, treatments)` (the `treatments` argument
is taken but never inspected by the source body). -/
def _noImprovement (wound : Wound) (treatments : List TreatmentRec) : Bool :=
  if wound.exudate_amount == some "abundante" then true
  else if painGt wound.pain_scale 6 then true
  else if anyBig wound.length_cm wound.width_cm 8 then true
  else false

/-- Source expression `Math.floor((today - createdDate) / (1000 * 60 * 60 * 24))`. -/
def daysSinceCreation (now created_at : Int) : Int :=
  (now - created_at).fdiv 86400000

/-- RULE 1 guard: `treatmentCount === 0 && daysSinceCreation < 1`. -/
def rule1 (treatmentCount : Nat) (days : Int) : Bool :=
  treatmentCount == 0 && decide (days < 1)

/-- RULE 2 guard: `treatmentCount >= 1 && treatmentCount <= 3 && !wound.infection_signs`. -/
def rule2 (wound : Wound) (treatmentCount : Nat) : Bool :=
  decide (1 ≤ treatmentCount) && decide (treatmentCount ≤ 3) && !strTruthy wound.infection_signs

/-- RULE 3 guard: infection signs `"si"`, or truthy pain above 7, or an old,
much-treated wound showing no improvement. -/
def rule3 (wound : Wound) (treatmentCount : Nat) (treatments : List TreatmentRec)
    (days : Int) : Bool :=
  wound.infection_signs == some "si" || painGt wound.pain_scale 7 ||
    (decide (days > 14) && decide (treatmentCount > 5) && _noImprovement wound treatments)

/-- RULE 4 guard: more than 3 treatments, falsy infection signs, pain null
or at most 5, and the improvement heuristic holds. -/
def rule4 (wound : Wound) (treatmentCount : Nat) (treatments : List TreatmentRec) : Bool :=
  decide (treatmentCount > 3) && !strTruthy wound.infection_signs &&
    painNullOrLe wound.pain_scale 5 && _showsImprovement wound treatments

/-- RULE 5 guard: both measurements truthy and below 1 cm, scarce exudate,
falsy-or-low pain, and infection signs not `"si"`. -/
def rule5 (wound : Wound) : Bool :=
  bothSmall wound.length_cm wound.width_cm 1 &&
    wound.exudate_amount == some "escaso" &&
    painFalsyOrLe wound.pain_scale 2 &&
    !(wound.infection_signs == some "si")

/-- The rule cascade of `evaluateStage`: first matching rule wins; when no
rule matches, `newStage` keeps its initial value `wound.clinical_stage`. -/
def computeStage (wound : Wound) (treatmentCount : Nat) (treatments : List TreatmentRec)
    (days : Int) : String :=
  if rule1 treatmentCount days then "valoracion_inicial"
  else if rule2 wound treatmentCount then "tratamiento_en_curso"
  else if rule3 wound treatmentCount treatments days then "bajo_observacion"
  else if rule4 wound treatmentCount treatments then "evolucion_favorable"
  else if rule5 wound then "alta_clinica"
  else wound.clinical_stage

/-- Source function `wounds.getById`: a Supabase select by id with `.single()`.
Any error (including the row being absent) is caught and yields `null`. -/
def getById (env : Env) (woundId : Nat) : Option Wound :=
  if env.readWoundFails then none
  else env.db.wounds.find? (fun w => w.id == woundId)

/-- Source function `treatments.listByWound`: a Supabase select of the wound's treatments.
Its `catch` swallows every error and returns `[]`, so a failed read is
indistinguishable from an empty list.  The source orders the rows by
`created_at` descending; that ordering only feeds `lastTreatment`, which
`evaluateStage` never reads, so the embedding keeps the table order. -/
def listByWound (env : Env) (woundId : Nat) : List TreatmentRec :=
  if env.readTreatmentsFails then []
  else env.db.treatments.filter (fun t => t.wound_id == woundId)

/-- Source function `wounds.updateStage`: sets `clinical_stage` on every row with the given
id; on error it catches, leaves the database unchanged and returns `false`. -/
def updateStage (env : Env) (woundId : Nat) (newStage : String) : DB × Bool :=
  if env.writeFails then (env.db, false)
  else
    ({ env.db with
        wounds := env.db.wounds.map
          (fun w => if w.id == woundId then { w with clinical_stage := newStage } else w) },
      true)

/-- Outcome of one `evaluateStage` run: the returned value (`none` models
the JS `null`), the resulting database, and whether the stage-update write
was issued. -/
structure EvalOutcome where
  result : Option String
  db : DB
  writeIssued : Bool
deriving Repr, DecidableEq

/-- Source function `wounds.evaluateStage(woundId)`: fetch the wound (aborting with `null`
when absent), fetch its treatments, run the rule cascade, and issue the
stage-update write exactly when the computed stage differs from the stored
one.  The returned value is the computed stage whether or not the write
succeeds, since `updateStage` never throws. -/
def evaluateStage (env : Env) (woundId : Nat) : EvalOutcome :=
  match getById env woundId with
  | none => ⟨none, env.db, false⟩
  | some wound =>
    let treatments := listByWound env woundId
    let treatmentCount := treatments.length
    let days := daysSinceCreation env.now wound.created_at
    let newStage := computeStage wound treatmentCount treatments days
    if newStage ≠ wound.clinical_stage then
      ⟨some newStage, (updateStage env woundId newStage).1, true⟩
    else
      ⟨some newStage, env.db, false⟩

/-- The stage the cascade computes for a wound in a given context bundled
for readability in the theorems below. -/
def computedStage (env : Env) (woundId : Nat) (wound : Wound) : String :=
  computeStage wound (listByWound env woundId).length (listByWound env woundId)
    (daysSinceCreation env.now wound.created_at)

/-- The stage produced by the first matching rule, `none` when no rule
matches (in which case `computeStage` keeps the stored stage). -/
def matchedStage (wound : Wound) (treatmentCount : Nat) (treatments : List TreatmentRec)
    (days : Int) : Option String :=
  if rule1 treatmentCount days then some "valoracion_inicial"
  else if rule2 wound treatmentCount then some "tratamiento_en_curso"
  else if rule3 wound treatmentCount treatments days then some "bajo_observacion"
  else if rule4 wound treatmentCount treatments then some "evolucion_favorable"
  else if rule5 wound then some "alta_clinica"
  else none

theorem computeStage_eq_matched (wound : Wound) (c : Nat) (t : List TreatmentRec) (d : Int) :
    computeStage wound c t d = (matchedStage wound c t d).getD wound.clinical_stage := by
  unfold computeStage matchedStage
  split_ifs <;> rfl

theorem matchedStage_stage_update (wound : Wound) (s : String) (c : Nat)
    (t : List TreatmentRec) (d : Int) :
    matchedStage { wound with clinical_stage := s } c t d = matchedStage wound c t d := rfl

theorem computeStage_stage_fix (wound : Wound) (c : Nat) (t : List TreatmentRec) (d : Int) :
    computeStage { wound with clinical_stage := computeStage wound c t d } c t d
      = computeStage wound c t d := by
  have h1 := computeStage_eq_matched
    { wound with clinical_stage := computeStage wound c t d } c t d
  rw [matchedStage_stage_update] at h1
  rw [h1, computeStage_eq_matched wound c t d]
  rcases hm : matchedStage wound c t d with _ | a <;> simp [hm]

theorem evaluateStage_result_eq (env : Env) (woundId : Nat) (wound : Wound)
    (h : getById env woundId = some wound) :
    (evaluateStage env woundId).result = some (computedStage env woundId wound) := by
  unfold evaluateStage computedStage
  rw [h]
  dsimp only
  split <;> rfl

theorem getById_some_id (env : Env) (woundId : Nat) (wound : Wound)
    (h : getById env woundId = some wound) : (wound.id == woundId) = true := by
  unfold getById at h
  by_cases hr : env.readWoundFails
  · simp [hr] at h
  · simp only [hr, if_false, Bool.false_eq_true] at h
    have h2 := List.find?_some h
    simpa using h2

theorem getById_after_update (env : Env) (woundId : Nat) (wound : Wound) (s : String)
    (h : getById env woundId = some wound) (hw : env.writeFails = false) :
    getById { env with db := (updateStage env woundId s).1 } woundId
      = some { wound with clinical_stage := s } := by
  have hid := getById_some_id env woundId wound h
  unfold getById updateStage at *
  by_cases hr : env.readWoundFails
  · simp [hr] at h
  · simp only [hr, if_false, Bool.false_eq_true, hw] at h ⊢
    rw [List.find?_map]
    have hp : (fun w : Wound => w.id == woundId) ∘
        (fun w : Wound => if w.id == woundId then { w with clinical_stage := s } else w)
        = fun w : Wound => w.id == woundId := by
      funext v
      by_cases hv : v.id = woundId <;> simp [hv]
    rw [hp, h]
    have hid2 : wound.id = woundId := by simpa using hid
    simp [hid2]

theorem computeStage_of_rule2 (wound : Wound) (c : Nat) (t : List TreatmentRec) (d : Int)
    (h1 : rule1 c d = false) (h2 : rule2 wound c = true) :
    computeStage wound c t d = "tratamiento_en_curso" := by
  unfold computeStage
  simp [h1, h2]

theorem computeStage_of_rule3 (wound : Wound) (c : Nat) (t : List TreatmentRec) (d : Int)
    (h1 : rule1 c d = false) (h2 : rule2 wound c = false) (h3 : rule3 wound c t d = true) :
    computeStage wound c t d = "bajo_observacion" := by
  unfold computeStage
  simp [h1, h2, h3]

theorem computeStage_of_rule5 (wound : Wound) (c : Nat) (t : List TreatmentRec) (d : Int)
    (h1 : rule1 c d = false) (h2 : rule2 wound c = false) (h3 : rule3 wound c t d = false)
    (h4 : rule4 wound c t = false) (h5 : rule5 wound = true) :
    computeStage wound c t d = "alta_clinica" := by
  unfold computeStage
  simp [h1, h2, h3, h4, h5]

/-- A baseline wound row for the concrete witnesses below: id 1, created at
instant 0, default stage, every optional column null. -/
def sampleWound : Wound :=
  { id := 1, created_at := 0, clinical_stage := "valoracion_inicial",
    infection_signs := none, pain_scale := none, exudate_amount := none,
    length_cm := none, width_cm := none }

/-- A treatment row belonging to wound 1. -/
def sampleTreatment (i : Nat) : TreatmentRec :=
  { id := i, wound_id := 1, created_at := Int.ofNat i }

/-- An environment in which every collaborator call succeeds. -/
def mkEnv (ws : List Wound) (ts : List TreatmentRec) (now : Int) : Env :=
  { db := { wounds := ws, treatments := ts }, now := now,
    readWoundFails := false, readTreatmentsFails := false, writeFails := false }

/-- C6: when the wound read yields no wound, evaluateStage returns null,
issues no stage write and leaves the database untouched. -/
theorem evaluateStage_wound_not_found (env : Env) (woundId : Nat)
    (h : getById env woundId = none) :
    evaluateStage env woundId = ⟨none, env.db, false⟩ := by
  unfold evaluateStage
  rw [h]

theorem evaluateStage_wound_not_found_witness :
    getById (mkEnv [] [] 0) 7 = none
      ∧ evaluateStage (mkEnv [] [] 0) 7 = ⟨none, (mkEnv [] [] 0).db, false⟩ :=
  ⟨rfl, evaluateStage_wound_not_found (mkEnv [] [] 0) 7 rfl⟩

/-- C8: when the stage-update write fails on an evaluation that attempts a
write (the computed stage differs from the stored one), evaluateStage still
returns the stage computed by the rule cascade rather than null. -/
theorem evaluateStage_write_failure_returns_stage (env : Env) (woundId : Nat) (wound : Wound)
    (h : getById env woundId = some wound) (hw : env.writeFails = true)
    (hdiff : computedStage env woundId wound ≠ wound.clinical_stage) :
    (evaluateStage env woundId).result = some (computedStage env woundId wound) :=
  evaluateStage_result_eq env woundId wound h

/-- The C8 witness wound: infection signs "si" with four recorded treatments. -/
def woundC8 : Wound := { sampleWound with infection_signs := some "si" }

/-- The C8 witness environment: the write collaborator fails. -/
def envC8 : Env :=
  { mkEnv [woundC8] [sampleTreatment 1, sampleTreatment 2, sampleTreatment 3, sampleTreatment 4] 0
      with writeFails := true }

theorem evaluateStage_write_failure_returns_stage_witness :
    envC8.writeFails = true
      ∧ computedStage envC8 1 woundC8 ≠ woundC8.clinical_stage
      ∧ (evaluateStage envC8 1).result = some (computedStage envC8 1 woundC8) :=
  ⟨rfl, by decide,
    evaluateStage_write_failure_returns_stage envC8 1 woundC8 rfl rfl (by decide)⟩

/-- C1 counterexample: a wound whose infection_signs field is "si" but which
has zero treatments and is under one day old evaluates to valoracion_inicial
(rule 1 precedes rule 3), contradicting the claim that infection "si" yields
bajo_observacion regardless of treatment count and age. -/
theorem infection_si_rule1_counterexample :
    (evaluateStage (mkEnv [{ sampleWound with infection_signs := some "si" }] [] 0) 1).result
        = some "valoracion_inicial"
      ∧ some "valoracion_inicial" ≠ (some "bajo_observacion" : Option String) :=
  ⟨by decide, by decide⟩

/-- C1 (amended): a stored wound whose infection_signs equals "si" evaluates
to bajo_observacion whenever rule 1 does not fire, i.e. except when the wound
has zero treatments and is under one day old; pain scale, measurements,
exudate and the exact treatment count are otherwise arbitrary. -/
theorem infection_si_bajo_observacion (env : Env) (woundId : Nat) (wound : Wound)
    (h : getById env woundId = some wound)
    (hinf : wound.infection_signs = some "si")
    (h1 : rule1 (listByWound env woundId).length
      (daysSinceCreation env.now wound.created_at) = false) :
    (evaluateStage env woundId).result = some "bajo_observacion" := by
  rw [evaluateStage_result_eq env woundId wound h]
  unfold computedStage
  rw [computeStage_of_rule3 wound _ _ _ h1]
  · unfold rule2
    rw [hinf]
    simp [strTruthy]
  · unfold rule3
    rw [hinf]
    simp

/-- The C1 witness wound: infection signs "si", one recorded treatment. -/
def woundC1 : Wound := { sampleWound with infection_signs := some "si" }

/-- The C1 witness environment. -/
def envC1 : Env := mkEnv [woundC1] [sampleTreatment 1] 0

theorem infection_si_bajo_observacion_witness :
    getById envC1 1 = some woundC1
      ∧ woundC1.infection_signs = some "si"
      ∧ (evaluateStage envC1 1).result = some "bajo_observacion" :=
  ⟨rfl, rfl, infection_si_bajo_observacion envC1 1 woundC1 rfl rfl (by decide)⟩

/-- C2 counterexample: a wound with pain_scale 9, no infection signs and two
treatments evaluates to tratamiento_en_curso (rule 2 precedes rule 3),
contradicting the claim that pain 9 yields bajo_observacion for any
treatment count. -/
theorem pain_nine_rule2_counterexample :
    (evaluateStage (mkEnv [{ sampleWound with pain_scale := some 9 }]
        [sampleTreatment 1, sampleTreatment 2] 0) 1).result
        = some "tratamiento_en_curso"
      ∧ some "tratamiento_en_curso" ≠ (some "bajo_observacion" : Option String) :=
  ⟨by decide, by decide⟩

/-- C2 (amended): a stored wound with pain_scale 9 evaluates to
bajo_observacion whenever neither rule 1 nor rule 2 fires, i.e. except when
the wound has zero treatments and is under one day old, and except when the
treatment count is between 1 and 3 with falsy infection signs. -/
theorem pain_nine_bajo_observacion (env : Env) (woundId : Nat) (wound : Wound)
    (h : getById env woundId = some wound)
    (hp : wound.pain_scale = some 9)
    (h1 : rule1 (listByWound env woundId).length
      (daysSinceCreation env.now wound.created_at) = false)
    (h2 : rule2 wound (listByWound env woundId).length = false) :
    (evaluateStage env woundId).result = some "bajo_observacion" := by
  rw [evaluateStage_result_eq env woundId wound h]
  unfold computedStage
  rw [computeStage_of_rule3 wound _ _ _ h1 h2]
  unfold rule3 painGt
  rw [hp]
  simp

/-- The C2 witness wound: pain scale 9, four recorded treatments. -/
def woundC2 : Wound := { sampleWound with pain_scale := some 9 }

/-- The C2 witness environment. -/
def envC2 : Env :=
  mkEnv [woundC2]
    [sampleTreatment 1, sampleTreatment 2, sampleTreatment 3, sampleTreatment 4] 0

theorem pain_nine_bajo_observacion_witness :
    getById envC2 1 = some woundC2
      ∧ woundC2.pain_scale = some 9
      ∧ (evaluateStage envC2 1).result = some "bajo_observacion" :=
  ⟨rfl, rfl, pain_nine_bajo_observacion envC2 1 woundC2 rfl rfl (by decide) (by decide)⟩

/-- C3 counterexample: a wound whose infection_signs is the truthy string
"no" (which is not "si") with two treatments does not evaluate to
tratamiento_en_curso: rule 2 tests JS truthiness of infection_signs, not
inequality with "si", so the stored stage is kept instead. -/
theorem treated_infection_no_counterexample :
    (evaluateStage (mkEnv [{ sampleWound with infection_signs := some "no" }]
        [sampleTreatment 1, sampleTreatment 2] 0) 1).result
        = some "valoracion_inicial"
      ∧ some "valoracion_inicial" ≠ (some "tratamiento_en_curso" : Option String) :=
  ⟨by decide, by decide⟩

/-- C3 (amended): a stored wound whose treatment count is between 1 and 3
and whose infection_signs field is falsy (absent, null or the empty string —
not merely different from "si") evaluates to tratamiento_en_curso. -/
theorem treated_no_infection_tratamiento (env : Env) (woundId : Nat) (wound : Wound)
    (h : getById env woundId = some wound)
    (hc1 : 1 ≤ (listByWound env woundId).length)
    (hc3 : (listByWound env woundId).length ≤ 3)
    (hinf : strTruthy wound.infection_signs = false) :
    (evaluateStage env woundId).result = some "tratamiento_en_curso" := by
  rw [evaluateStage_result_eq env woundId wound h]
  unfold computedStage
  rw [computeStage_of_rule2 wound _ _ _]
  · unfold rule1
    have hne : (listByWound env woundId).length ≠ 0 := by omega
    simp [hne]
  · unfold rule2
    simp [hinf, hc1, hc3]

/-- The C3 witness wound: every optional field null. -/
def woundC3 : Wound := sampleWound

/-- The C3 witness environment: two recorded treatments. -/
def envC3 : Env := mkEnv [woundC3] [sampleTreatment 1, sampleTreatment 2] 0

theorem treated_no_infection_tratamiento_witness :
    getById envC3 1 = some woundC3
      ∧ 1 ≤ (listByWound envC3 1).length ∧ (listByWound envC3 1).length ≤ 3
      ∧ (evaluateStage envC3 1).result = some "tratamiento_en_curso" :=
  ⟨rfl, by decide, by decide,
    treated_no_infection_tratamiento envC3 1 woundC3 rfl (by decide) (by decide) rfl⟩

/-- The C9 counterexample wound: length 0 (present, below 1 cm, but falsy in
JS), width one half, scarce exudate, stored stage tratamiento_en_curso. -/
def woundC9ce : Wound :=
  { sampleWound with
    clinical_stage := "tratamiento_en_curso",
    length_cm := some 0, width_cm := some (mkRat 1 2),
    exudate_amount := some "escaso" }

/-- The C9 counterexample environment: no treatments, wound two days old. -/
def envC9ce : Env := mkEnv [woundC9ce] [] (2 * 86400000)

/-- C9 counterexample: a wound matching none of rules 1 to 4, with both
measurements present and below 1 cm, scarce exudate, null pain and no
infection signs, does not evaluate to alta_clinica when one measurement is 0:
the source tests JS truthiness of length_cm, so a zero measurement disables
rule 5 and the stored stage is kept. -/
theorem rule5_zero_length_counterexample :
    woundC9ce.length_cm = some 0 ∧ (0 : ℚ) < 1
      ∧ woundC9ce.width_cm = some (mkRat 1 2) ∧ mkRat 1 2 < 1
      ∧ woundC9ce.exudate_amount = some "escaso"
      ∧ woundC9ce.pain_scale = none
      ∧ woundC9ce.infection_signs ≠ some "si"
      ∧ rule1 (listByWound envC9ce 1).length
          (daysSinceCreation envC9ce.now woundC9ce.created_at) = false
      ∧ rule2 woundC9ce (listByWound envC9ce 1).length = false
      ∧ rule3 woundC9ce (listByWound envC9ce 1).length (listByWound envC9ce 1)
          (daysSinceCreation envC9ce.now woundC9ce.created_at) = false
      ∧ rule4 woundC9ce (listByWound envC9ce 1).length (listByWound envC9ce 1) = false
      ∧ (evaluateStage envC9ce 1).result = some "tratamiento_en_curso"
      ∧ some "tratamiento_en_curso" ≠ (some "alta_clinica" : Option String) := by
  decide

/-- C9 (amended): a stored wound matching none of rules 1 to 4, with
length_cm and width_cm both present, nonzero and below 1 cm, scarce exudate,
pain null or at most 2, and infection_signs not "si", evaluates to
alta_clinica.  (The nonzero requirement is the JS-truthiness amendment.) -/
theorem alta_clinica_of_rule5 (env : Env) (woundId : Nat) (wound : Wound)
    (h : getById env woundId = some wound)
    (h1 : rule1 (listByWound env woundId).length
      (daysSinceCreation env.now wound.created_at) = false)
    (h2 : rule2 wound (listByWound env woundId).length = false)
    (h3 : rule3 wound (listByWound env woundId).length (listByWound env woundId)
      (daysSinceCreation env.now wound.created_at) = false)
    (h4 : rule4 wound (listByWound env woundId).length (listByWound env woundId) = false)
    (ha : ∃ a, wound.length_cm = some a ∧ a ≠ 0 ∧ a < 1)
    (hb : ∃ b, wound.width_cm = some b ∧ b ≠ 0 ∧ b < 1)
    (he : wound.exudate_amount = some "escaso")
    (hp : wound.pain_scale = none ∨ ∃ p, wound.pain_scale = some p ∧ p ≤ 2)
    (hi : wound.infection_signs ≠ some "si") :
    (evaluateStage env woundId).result = some "alta_clinica" := by
  rw [evaluateStage_result_eq env woundId wound h]
  unfold computedStage
  rw [computeStage_of_rule5 wound _ _ _ h1 h2 h3 h4]
  obtain ⟨a, hla, ha0, ha1⟩ := ha
  obtain ⟨b, hlb, hb0, hb1⟩ := hb
  unfold rule5 bothSmall painFalsyOrLe
  rw [hla, hlb, he]
  rcases hp with hp | ⟨p, hpp, hple⟩
  · rw [hp]
    simp [ha0, hb0, ha1, hb1, hi]
  · rw [hpp]
    simp [ha0, hb0, ha1, hb1, hi, hple]

/-- The C9 witness wound: half-centimeter measurements, scarce exudate,
pain 1, no infection signs. -/
def woundC9 : Wound :=
  { sampleWound with
    length_cm := some (mkRat 1 2), width_cm := some (mkRat 1 2),
    exudate_amount := some "escaso", pain_scale := some 1 }

/-- The C9 witness environment: no treatments, wound two days old. -/
def envC9 : Env := mkEnv [woundC9] [] (2 * 86400000)

theorem alta_clinica_of_rule5_witness :
    getById envC9 1 = some woundC9
      ∧ woundC9.exudate_amount = some "escaso"
      ∧ (evaluateStage envC9 1).result = some "alta_clinica" :=
  ⟨rfl, rfl,
    alta_clinica_of_rule5 envC9 1 woundC9 rfl (by decide) (by decide) (by decide) (by decide)
      ⟨mkRat 1 2, rfl, by decide, by decide⟩ ⟨mkRat 1 2, rfl, by decide, by decide⟩ rfl
      (Or.inr ⟨1, rfl, by decide⟩) (by decide)⟩

/-- The noImprovement predicate exactly as the claim words it: abundant
exudate, or pain above 6, or — when both measurements are present — a
measurement above 8 cm. -/
def noImprovementSpec (wound : Wound) : Bool :=
  wound.exudate_amount == some "abundante" ||
    (match wound.pain_scale with
      | some p => decide (p > 6)
      | none => false) ||
    (match wound.length_cm, wound.width_cm with
      | some a, some b => decide (a > 8) || decide (b > 8)
      | _, _ => false)

/-- The noImprovement predicate as the code computes it, in the claim's
vocabulary amended with the JS-truthiness requirement that both measurements
be nonzero. -/
def noImprovementAmended (wound : Wound) : Bool :=
  wound.exudate_amount == some "abundante" ||
    (match wound.pain_scale with
      | some p => decide (p > 6)
      | none => false) ||
    (match wound.length_cm, wound.width_cm with
      | some a, some b => decide (a ≠ 0) && decide (b ≠ 0) && (decide (a > 8) || decide (b > 8))
      | _, _ => false)

theorem painGt6_eq (o : Option Nat) :
    painGt o 6 = (match o with | some p => decide (p > 6) | none => false) := by
  rcases o with _ | p
  · rfl
  · by_cases h6 : p > 6
    · have h0 : p ≠ 0 := by omega
      simp [painGt, h6, h0]
    · simp [painGt, h6]

theorem noImprovement_ite (wound : Wound) (treatments : List TreatmentRec) :
    _noImprovement wound treatments =
      ((wound.exudate_amount == some "abundante") || painGt wound.pain_scale 6
        || anyBig wound.length_cm wound.width_cm 8) := by
  unfold _noImprovement
  cases h1 : (wound.exudate_amount == some "abundante") <;>
    cases h2 : painGt wound.pain_scale 6 <;>
    cases h3 : anyBig wound.length_cm wound.width_cm 8 <;>
    simp [h1, h2, h3]

/-- The C10 counterexample wound: length present but 0, width 9. -/
def woundC10 : Wound := { sampleWound with length_cm := some 0, width_cm := some 9 }

/-- C10 counterexample: with both measurements present and width above 8 the
claim makes noImprovement true, but the code returns false because the zero
length is falsy in JS and disables the measurement check. -/
theorem noImprovement_claim_counterexample :
    noImprovementSpec woundC10 = true ∧ _noImprovement woundC10 [] = false :=
  ⟨by decide, by decide⟩

/-- C10 (amended): for every wound and treatment list, _noImprovement returns
true exactly when exudate_amount equals "abundante", or pain_scale is greater
than 6, or — when the measurements are both present and nonzero — length_cm
or width_cm is greater than 8. -/
theorem noImprovement_characterization (wound : Wound) (treatments : List TreatmentRec) :
    _noImprovement wound treatments = noImprovementAmended wound := by
  rw [noImprovement_ite, painGt6_eq]
  unfold noImprovementAmended anyBig
  rcases wound.pain_scale with _ | p <;>
    rcases wound.length_cm with _ | a <;>
    rcases wound.width_cm with _ | b <;>
    rfl

/-- Two wound rows that agree on every column except possibly clinical_stage. -/
def agreesExceptStage (a b : Wound) : Prop :=
  a.id = b.id ∧ a.created_at = b.created_at ∧ a.infection_signs = b.infection_signs
    ∧ a.pain_scale = b.pain_scale ∧ a.exudate_amount = b.exudate_amount
    ∧ a.length_cm = b.length_cm ∧ a.width_cm = b.width_cm

theorem agreesExceptStage_refl (a : Wound) : agreesExceptStage a a :=
  ⟨rfl, rfl, rfl, rfl, rfl, rfl, rfl⟩

theorem agreesExceptStage_setStage (a : Wound) (s : String) :
    agreesExceptStage a { a with clinical_stage := s } :=
  ⟨rfl, rfl, rfl, rfl, rfl, rfl, rfl⟩

theorem evaluateStage_eq_of_found (env : Env) (woundId : Nat) (wound : Wound)
    (h : getById env woundId = some wound) :
    evaluateStage env woundId =
      if computedStage env woundId wound ≠ wound.clinical_stage then
        ⟨some (computedStage env woundId wound),
          (updateStage env woundId (computedStage env woundId wound)).1, true⟩
      else ⟨some (computedStage env woundId wound), env.db, false⟩ := by
  unfold evaluateStage computedStage
  rw [h]

/-- C4: on a successful run the stage-update write is issued exactly when the
computed stage differs from the stored clinical_stage; the run touches at most
the clinical_stage column of existing wound rows (row by row every other
column is preserved, so no wound is created or deleted) and returns the
treatment table unchanged. -/
theorem evaluateStage_frame (env : Env) (woundId : Nat) (wound : Wound)
    (h : getById env woundId = some wound) :
    ((evaluateStage env woundId).writeIssued = true
        ↔ computedStage env woundId wound ≠ wound.clinical_stage)
      ∧ (evaluateStage env woundId).db.treatments = env.db.treatments
      ∧ List.Forall₂ agreesExceptStage env.db.wounds (evaluateStage env woundId).db.wounds := by
  rw [evaluateStage_eq_of_found env woundId wound h]
  by_cases hd : computedStage env woundId wound = wound.clinical_stage
  · rw [if_neg (fun hne => hne hd)]
    refine ⟨by simp [hd], rfl, ?_⟩
    exact List.forall₂_same.mpr (fun x _ => agreesExceptStage_refl x)
  · rw [if_pos hd]
    refine ⟨by simp [hd], ?_, ?_⟩
    · unfold updateStage
      split <;> rfl
    · unfold updateStage
      split
      · exact List.forall₂_same.mpr (fun x _ => agreesExceptStage_refl x)
      · dsimp only
        rw [List.forall₂_map_right_iff]
        refine List.forall₂_same.mpr (fun x _ => ?_)
        by_cases hx : x.id = woundId
        · have hb : (x.id == woundId) = true := by simp [hx]
          rw [if_pos hb]
          exact agreesExceptStage_setStage x _
        · have hb : (x.id == woundId) = false := by simp [hx]
          rw [if_neg (by simp [hb])]
          exact agreesExceptStage_refl x

theorem evaluateStage_frame_witness :
    getById envC3 1 = some woundC3
      ∧ (((evaluateStage envC3 1).writeIssued = true
            ↔ computedStage envC3 1 woundC3 ≠ woundC3.clinical_stage)
          ∧ (evaluateStage envC3 1).db.treatments = envC3.db.treatments
          ∧ List.Forall₂ agreesExceptStage envC3.db.wounds (evaluateStage envC3 1).db.wounds) :=
  ⟨rfl, evaluateStage_frame envC3 1 woundC3 rfl⟩

/-- C5: evaluating twice at the same instant, with the first call's write (if
any) applied and nothing else changed, returns the same stage both times; the
second call issues no write and leaves the database as the first call left it. -/
theorem evaluateStage_idempotent (env : Env) (woundId : Nat) (wound : Wound)
    (h : getById env woundId = some wound) (hw : env.writeFails = false) :
    (evaluateStage { env with db := (evaluateStage env woundId).db } woundId).result
        = (evaluateStage env woundId).result
      ∧ (evaluateStage { env with db := (evaluateStage env woundId).db } woundId).writeIssued
        = false
      ∧ (evaluateStage { env with db := (evaluateStage env woundId).db } woundId).db
        = (evaluateStage env woundId).db := by
  have e1 := evaluateStage_eq_of_found env woundId wound h
  by_cases hd : computedStage env woundId wound = wound.clinical_stage
  · rw [if_neg (fun hne => hne hd)] at e1
    have key : ({ env with db := (evaluateStage env woundId).db } : Env) = env := by
      rw [e1]
    rw [key, e1]
    exact ⟨rfl, rfl, rfl⟩
  · rw [if_pos hd] at e1
    have hs2 : computeStage wound (listByWound env woundId).length (listByWound env woundId)
        (daysSinceCreation env.now wound.created_at) = computedStage env woundId wound := rfl
    generalize hs : computedStage env woundId wound = s at *
    have hdb : (updateStage env woundId s).1
        = { env.db with
            wounds := env.db.wounds.map
              (fun w => if w.id == woundId then
                { w with clinical_stage := s } else w) } := by
      unfold updateStage
      rw [hw]
      rfl
    have key : ({ env with db := (evaluateStage env woundId).db } : Env)
        = { env with db := (updateStage env woundId s).1 } := by
      rw [e1]
    have hg := getById_after_update env woundId wound s h hw
    have hlist : listByWound
        { env with db := (updateStage env woundId s).1 } woundId
        = listByWound env woundId := by
      rw [hdb]
      rfl
    have hfix : computedStage
        { env with db := (updateStage env woundId s).1 } woundId
        { wound with clinical_stage := s }
        = s := by
      unfold computedStage
      rw [hlist]
      show computeStage { wound with clinical_stage := s } (listByWound env woundId).length
        (listByWound env woundId) (daysSinceCreation env.now wound.created_at) = s
      rw [← hs2]
      exact computeStage_stage_fix wound (listByWound env woundId).length
        (listByWound env woundId) (daysSinceCreation env.now wound.created_at)
    have e2 := evaluateStage_eq_of_found
      { env with db := (updateStage env woundId s).1 } woundId
      { wound with clinical_stage := s } hg
    rw [hfix] at e2
    rw [if_neg (fun hne => hne rfl)] at e2
    rw [key, e2, e1]
    exact ⟨rfl, rfl, rfl⟩

/-- The C5 witness wound and environment: two treatments and falsy infection
signs, so the first call writes tratamiento_en_curso. -/
def envC5 : Env := mkEnv [sampleWound] [sampleTreatment 1, sampleTreatment 2] 0

theorem evaluateStage_idempotent_witness :
    getById envC5 1 = some sampleWound
      ∧ envC5.writeFails = false
      ∧ (evaluateStage { envC5 with db := (evaluateStage envC5 1).db } 1).result
          = (evaluateStage envC5 1).result
      ∧ (evaluateStage { envC5 with db := (evaluateStage envC5 1).db } 1).writeIssued = false :=
  ⟨rfl, rfl, (evaluateStage_idempotent envC5 1 sampleWound rfl rfl).1,
    (evaluateStage_idempotent envC5 1 sampleWound rfl rfl).2.1⟩

/-- The C7 wound: stored stage tratamiento_en_curso, two recorded treatments. -/
def woundC7 : Wound := { sampleWound with clinical_stage := "tratamiento_en_curso" }

/-- The C7 failing environment: the treatment-list read fails. -/
def envC7 : Env :=
  { db := { wounds := [woundC7], treatments := [sampleTreatment 1, sampleTreatment 2] },
    now := 0, readWoundFails := false, readTreatmentsFails := true, writeFails := false }

/-- C7: the code does not abort when the treatment-list read fails.
listByWound swallows the error and returns the empty list, so evaluateStage
computes a stage as though the wound had zero treatments and can even issue a
demoting write: here a wound stored as tratamiento_en_curso with two recorded
treatments is re-evaluated to valoracion_inicial and a write is issued. -/
theorem evaluateStage_read_failure_guesses :
    envC7.readTreatmentsFails = true
      ∧ (evaluateStage envC7 1).result = some "valoracion_inicial"
      ∧ (evaluateStage envC7 1).writeIssued = true :=
  ⟨rfl, by decide, by decide⟩
